import Mathlib

/-!
Shallow embedding of the ARFit-Kit core (cloth physics engine and software
AR rasterizer) together with proofs about the spec's claims.

Modelling conventions:
* C++ `float` values are modelled as exact rationals (`ℚ`).
* `std::sqrt` is not fixed: every function that needs it takes an explicit
  argument `fsqrt : ℚ → ℚ`, so all theorems hold for every square-root
  implementation.
* `std::vector` is modelled as `List`; in-place writes become `List.set`
  (a no-op out of bounds, matching the defined executions of the source).
* The `int`-to-`size_t` conversion that the source performs when comparing
  `anchorBoneId` with `vertices.size()` is modelled by `usizeOfInt`.
-/

namespace ARFit

/-- 3D point / vector (types.h `Point3D`). -/
structure Point3D where
  x : ℚ
  y : ℚ
  z : ℚ
deriving DecidableEq, Repr

/-- 2D point (types.h `Point2D`). -/
structure Point2D where
  x : ℚ
  y : ℚ
deriving DecidableEq, Repr

instance : Add Point3D := ⟨fun a b => ⟨a.x + b.x, a.y + b.y, a.z + b.z⟩⟩

instance : Sub Point3D := ⟨fun a b => ⟨a.x - b.x, a.y - b.y, a.z - b.z⟩⟩

/-- `Point3D::operator*(float)` : scaling by a scalar. -/
def Point3D.smul (p : Point3D) (s : ℚ) : Point3D := ⟨p.x * s, p.y * s, p.z * s⟩

/-- Squared Euclidean norm, as it is spelled out in the source
(`d.x*d.x + d.y*d.y + d.z*d.z`). -/
def normSq (p : Point3D) : ℚ := p.x * p.x + p.y * p.y + p.z * p.z

/-- Dot product, used by the renderer's lighting computation. -/
def dot3 (a b : Point3D) : ℚ := a.x * b.x + a.y * b.y + a.z * b.z

/-- Error codes (types.h `ErrorCode`); only the constructors that the embedded
code can return are listed. -/
inductive ErrorCode where
  | SUCCESS
  | INITIALIZATION_FAILED
  | INVALID_IMAGE
deriving DecidableEq, Repr

/-- The `int`-to-`size_t` conversion applied when a C++ `int` is compared
against a `size_t` (`p.anchorBoneId < lastBody.vertices.size()`). -/
def usizeOfInt (i : ℤ) : ℕ := (i % (2 ^ 64)).toNat

/-! ## Physics engine data model (physics_engine.cpp / physics_engine.h) -/

/-- Simulation particle (`struct Particle`). -/
structure Particle where
  position : Point3D
  prevPosition : Point3D
  velocity : Point3D
  invMass : ℚ
  anchorBoneId : ℤ
deriving DecidableEq, Repr

/-- Distance constraint (`struct Constraint`); the particle indices are the
nonnegative `int` indices the source stores. -/
structure Constraint where
  p1 : ℕ
  p2 : ℕ
  restLength : ℚ
  stiffness : ℚ
deriving DecidableEq, Repr

/-- Physics configuration (`struct PhysicsConfig`) with its declared default
values.  `solverIterations` is a C++ `int` used only as a loop bound, so a
natural number is enough. -/
structure PhysicsConfig where
  gravity : ℚ := -(981 / 100)
  timeStep : ℚ := 1 / 60
  solverIterations : ℕ := 10
  damping : ℚ := 99 / 100
  friction : ℚ := 1 / 2
  stretchStiffness : ℚ := 9 / 10
  bendStiffness : ℚ := 1 / 2
  shearStiffness : ℚ := 7 / 10
  collisionMargin : ℚ := 1 / 100
  enableSelfCollision : Bool := true
deriving DecidableEq, Repr

/-- Collision body from body tracking (`struct CollisionBody`).  The
`triangles` and `transform` members are never read by the embedded code and
are omitted. -/
structure CollisionBody where
  vertices : List Point3D
deriving DecidableEq, Repr

/-- Mesh vertex (`struct Vertex`); `tangent`/`bitangent` are never read by
the embedded code and are omitted. -/
structure Vertex where
  position : Point3D
  normal : Point3D
  texCoord : Point2D
deriving DecidableEq, Repr

/-- Triangle face (`struct Face` : `uint32_t indices[3]`). -/
structure Face where
  i0 : ℕ
  i1 : ℕ
  i2 : ℕ
deriving DecidableEq, Repr

/-- Mesh payload (the parts of `class Mesh` the embedded code reads). -/
structure MeshData where
  vertices : List Vertex
  faces : List Face
deriving DecidableEq, Repr

/-- Garment, as seen by the physics engine: possibly lacking a mesh
(`garment->getMesh()` may be null). -/
structure Garment where
  mesh : Option MeshData
deriving DecidableEq, Repr

/-- Range of particle indices owned by one garment (`struct Range`). -/
structure GarmentRange where
  start : ℕ
  count : ℕ
deriving DecidableEq, Repr

/-- Whole engine state (`PhysicsEngine::Impl`).  Garments (`shared_ptr` keys
of the `std::map`) are identified by a natural-number id. -/
structure EngineState where
  config : PhysicsConfig
  initialized : Bool
  particles : List Particle
  constraints : List Constraint
  garmentMap : List (ℕ × GarmentRange)
  lastBody : CollisionBody
deriving DecidableEq, Repr

/-- Default-constructed particle, used as the out-of-bounds fallback of the
modelled `std::vector` indexing. -/
def defaultParticle : Particle := ⟨⟨0, 0, 0⟩, ⟨0, 0, 0⟩, ⟨0, 0, 0⟩, 0, -1⟩

/-- `particles[i]` read access. -/
def getP (ps : List Particle) (i : ℕ) : Particle := (ps[i]?).getD defaultParticle

/-- The gravity vector the source hardcodes at the top of
`Impl::update`: `Point3D gravity = {0, -9.81f, 0};`. -/
def hardcodedGravity : Point3D := ⟨0, -(981 / 100), 0⟩

/-- Phase 1 of `Impl::update`: external force application / prediction for
one particle.  Free particles integrate gravity; pinned particles with a
valid anchor bone snap to the live body vertex. -/
def integrateParticle (body : CollisionBody) (dt : ℚ) (p : Particle) : Particle :=
  if 0 < p.invMass then
    let v := p.velocity + hardcodedGravity.smul dt
    { p with velocity := v, prevPosition := p.position, position := p.position + v.smul dt }
  else if p.anchorBoneId ≠ -1 ∧ usizeOfInt p.anchorBoneId < body.vertices.length then
    { p with prevPosition := p.position,
             position := (body.vertices[usizeOfInt p.anchorBoneId]?).getD ⟨0, 0, 0⟩ }
  else p

/-- The guarded first write of the constraint relaxation:
`if (p1.invMass > 0) p1.position = p1.position - correction * p1.invMass;`. -/
def relaxMinus (ps : List Particle) (j : ℕ) (correction : Point3D) : List Particle :=
  let p := getP ps j
  if 0 < p.invMass then
    ps.set j { p with position := p.position - correction.smul p.invMass }
  else ps

/-- The guarded second write of the constraint relaxation:
`if (p2.invMass > 0) p2.position = p2.position + correction * p2.invMass;`;
it re-reads the particle from the (possibly already updated) array, matching
the C++ reference semantics. -/
def relaxPlus (ps : List Particle) (j : ℕ) (correction : Point3D) : List Particle :=
  let p := getP ps j
  if 0 < p.invMass then
    ps.set j { p with position := p.position + correction.smul p.invMass }
  else ps

/-- One distance-constraint relaxation (loop body of phase 2 of
`Impl::update`). -/
def solveConstraintStep (fsqrt : ℚ → ℚ) (ps : List Particle) (c : Constraint) :
    List Particle :=
  let p1 := getP ps c.p1
  let p2 := getP ps c.p2
  let delta := p1.position - p2.position
  let dist := fsqrt (normSq delta)
  if dist < 1 / 10000 then ps
  else
    let diff := (dist - c.restLength) / (p1.invMass + p2.invMass + 1 / 10000) * c.stiffness
    let correction := delta.smul (diff / dist)
    relaxPlus (relaxMinus ps c.p1 correction) c.p2 correction

/-- One full pass over the constraint list. -/
def constraintPass (fsqrt : ℚ → ℚ) (cs : List Constraint) (ps : List Particle) :
    List Particle :=
  cs.foldl (solveConstraintStep fsqrt) ps

/-- Sphere radius chosen per body-landmark index in `Impl::solveCollisions`
(NOSE = 0 gets the head radius, LEFT_HIP = 23 / RIGHT_HIP = 24 the torso
radius, everything else the arm radius). -/
def collisionRadius (i : ℕ) : ℚ :=
  if i = 0 then 3 / 20
  else if i = 23 ∨ i = 24 then 11 / 50
  else 2 / 25

/-- Collision response of one particle against one indexed body vertex. -/
def collideWithVertex (fsqrt : ℚ → ℚ) (margin : ℚ) (p : Particle) (iv : ℕ × Point3D) :
    Particle :=
  let radius := collisionRadius iv.1
  let bv := iv.2
  let diff := p.position - bv
  let distSq := normSq diff
  let limit := radius + margin
  if distSq < limit * limit then
    let dist := fsqrt distSq
    let normal := diff.smul (1 / (dist + 1 / 1000000))
    { p with position := bv + normal.smul limit, velocity := p.velocity.smul (7 / 10) }
  else p

/-- `Impl::solveCollisions`: every free particle is pushed out of every body
sphere in landmark order; pinned particles are skipped. -/
def solveCollisions (fsqrt : ℚ → ℚ) (margin : ℚ) (body : CollisionBody)
    (ps : List Particle) : List Particle :=
  ps.map fun p =>
    if p.invMass ≤ 0 then p
    else body.vertices.enum.foldl (collideWithVertex fsqrt margin) p

/-- One solver iteration: the constraint pass followed by collision
resolution (phase 2 + 3 of `Impl::update`). -/
def solverIteration (fsqrt : ℚ → ℚ) (margin : ℚ) (body : CollisionBody)
    (cs : List Constraint) (ps : List Particle) : List Particle :=
  solveCollisions fsqrt margin body (constraintPass fsqrt cs ps)

/-- The `config.solverIterations`-fold solver loop. -/
def solverLoop (fsqrt : ℚ → ℚ) (margin : ℚ) (body : CollisionBody)
    (cs : List Constraint) : ℕ → List Particle → List Particle
  | 0, ps => ps
  | n + 1, ps => solverLoop fsqrt margin body cs n (solverIteration fsqrt margin body cs ps)

/-- Phase 4 of `Impl::update`: PBD velocity derivation for one particle. -/
def updateVelocityParticle (dt damping : ℚ) (p : Particle) : Particle :=
  if 0 < p.invMass then
    { p with velocity := ((p.position - p.prevPosition).smul (1 / dt)).smul damping }
  else p

/-- `PhysicsEngine::Impl::update`. -/
def engineUpdate (fsqrt : ℚ → ℚ) (st : EngineState) (dt : ℚ) : EngineState :=
  if st.particles.isEmpty then st
  else
    let ps1 := st.particles.map (integrateParticle st.lastBody dt)
    let ps2 := solverLoop fsqrt st.config.collisionMargin st.lastBody st.constraints
      st.config.solverIterations ps1
    let ps3 := ps2.map (updateVelocityParticle dt st.config.damping)
    { st with particles := ps3 }

/-- `PhysicsEngine::step`: runs the update and always reports success (the
returned `PhysicsResult` carries no state and is omitted). -/
def engineStep (fsqrt : ℚ → ℚ) (dt : ℚ) (st : EngineState) : ErrorCode × EngineState :=
  (ErrorCode.SUCCESS, engineUpdate fsqrt st dt)

/-- Particle created for a mesh vertex in `PhysicsEngine::addGarment`,
including the shoulder-anchoring heuristic. -/
def particleOfVertex (v : Vertex) : Particle :=
  let base : Particle := ⟨v.position, v.position, ⟨0, 0, 0⟩, 1, -1⟩
  if 9 / 20 < v.position.y ∧ 3 / 20 < |v.position.x| then
    { base with invMass := 0, anchorBoneId := if v.position.x < 0 then 11 else 12 }
  else base

/-- Sorted edge endpoints (`if (a > b) std::swap(a, b)`). -/
def sortEdge (a b : ℕ) : ℕ × ℕ := if b < a then (b, a) else (a, b)

/-- The three directed edges the source walks for one face
(`indices[i]`, `indices[(i+1)%3]` for `i = 0,1,2`), already offset and
sorted. -/
def edgesOfFace (start : ℕ) (f : Face) : List (ℕ × ℕ) :=
  [sortEdge (start + f.i0) (start + f.i1),
   sortEdge (start + f.i1) (start + f.i2),
   sortEdge (start + f.i2) (start + f.i0)]

/-- Folding step of `Impl::createConstraintsFromMesh`: deduplicate via the
seen-edge set, then append a stretch constraint with the current
inter-particle distance as rest length. -/
def addEdgeConstraint (fsqrt : ℚ → ℚ) (stiff : ℚ) (ps : List Particle)
    (acc : List (ℕ × ℕ) × List Constraint) (e : ℕ × ℕ) :
    List (ℕ × ℕ) × List Constraint :=
  if e ∈ acc.1 then acc
  else
    let d := (getP ps e.1).position - (getP ps e.2).position
    (e :: acc.1, acc.2 ++ [⟨e.1, e.2, fsqrt (normSq d), stiff⟩])

/-- `Impl::createConstraintsFromMesh`: one stretch constraint per unique
triangle edge, in first-occurrence order. -/
def createConstraintsFromMesh (fsqrt : ℚ → ℚ) (stiff : ℚ) (ps : List Particle)
    (faces : List Face) (start : ℕ) : List Constraint :=
  (faces.foldl (fun acc f => (edgesOfFace start f).foldl (addEdgeConstraint fsqrt stiff ps) acc)
    ([], [])).2

/-- `std::map::operator[]` assignment on the garment map. -/
def mapInsert (m : List (ℕ × GarmentRange)) (k : ℕ) (v : GarmentRange) :
    List (ℕ × GarmentRange) :=
  if m.any (fun kv => kv.1 = k) then m.map (fun kv => if kv.1 = k then (k, v) else kv)
  else m ++ [(k, v)]

/-- `PhysicsEngine::addGarment`. -/
def engineAddGarment (fsqrt : ℚ → ℚ) (gid : ℕ) (g : Option Garment) (st : EngineState) :
    ErrorCode × EngineState :=
  match g with
  | none => (ErrorCode.INVALID_IMAGE, st)
  | some gm =>
    match gm.mesh with
    | none => (ErrorCode.INVALID_IMAGE, st)
    | some mesh =>
      let start := st.particles.length
      let ps := st.particles ++ mesh.vertices.map particleOfVertex
      let cs := st.constraints ++
        createConstraintsFromMesh fsqrt st.config.stretchStiffness ps mesh.faces start
      (ErrorCode.SUCCESS,
        { st with particles := ps, constraints := cs,
                  garmentMap := mapInsert st.garmentMap gid ⟨start, mesh.vertices.length⟩ })

/-- `PhysicsEngine::initialize`. -/
def engineInitialize (cfg : PhysicsConfig) (st : EngineState) : ErrorCode × EngineState :=
  (ErrorCode.SUCCESS, { st with config := cfg, initialized := true })

/-- `PhysicsEngine::updateCollisionBody`. -/
def engineUpdateCollisionBody (body : CollisionBody) (st : EngineState) : EngineState :=
  { st with lastBody := body }

/-- `PhysicsEngine::removeGarment` (erases only the map entry). -/
def engineRemoveGarment (gid : ℕ) (st : EngineState) : EngineState :=
  { st with garmentMap := st.garmentMap.filter (fun kv => kv.1 != gid) }

/-- `PhysicsEngine::reset`: clears particles, constraints and the garment
map (and nothing else). -/
def engineReset (st : EngineState) : EngineState :=
  { st with particles := [], constraints := [], garmentMap := [] }

/-- A default-constructed engine. -/
def initialEngineState : EngineState := ⟨{}, false, [], [], [], ⟨[]⟩⟩

/-! ## Software AR renderer (ar_renderer.cpp) -/

/-- Image container (types.h `ImageData`); pixel bytes are naturals < 256. -/
structure ImageData where
  pixels : List ℕ
  width : ℤ
  height : ℤ
  channels : ℤ
deriving DecidableEq, Repr

/-- Camera frame (types.h `CameraFrame`); the camera transform and timestamp
are never read by the embedded code and are omitted. -/
structure CameraFrame where
  image : ImageData
deriving DecidableEq, Repr

/-- Rendering configuration (`struct RenderConfig`) with its defaults. -/
structure RenderConfig where
  outputWidth : ℤ := 1920
  outputHeight : ℤ := 1080
  enableShadows : Bool := true
  enableAntialiasing : Bool := true
  enableAmbientOcclusion : Bool := false
  shadowIntensity : ℚ := 1 / 2
  lightDirection : Point3D := ⟨1 / 2, -1, 1 / 2⟩
  ambientLight : ℚ := 3 / 10
deriving DecidableEq, Repr

/-- Drawable object (`struct RenderObject`); the stored texture and
transform are never read by `drawGarments` and are omitted. -/
structure RenderObject where
  mesh : Option MeshData
  visible : Bool
deriving DecidableEq, Repr

/-- Whole renderer state (`ARRenderer::Impl`). -/
structure RendererState where
  config : RenderConfig
  initialized : Bool
  currentFrame : CameraFrame
  garments : List RenderObject
  framebuffer : List ℕ
  depthBuffer : List ℚ
  width : ℤ
  height : ℤ
deriving DecidableEq, Repr

/-- The C++ cast `(uint8_t)(float)` for the nonnegative values produced by
the shading code: truncation, reduced mod 256. -/
def ratTruncByte (q : ℚ) : ℕ := (⌊q⌋).toNat % 256

/-- The depth produced by `Impl::project`:
`outZ = p.z + 2.5f; if (outZ < 0.1f) outZ = 0.1f;`. -/
def projectDepth (p : Point3D) : ℚ :=
  let z := p.z + 5 / 2
  if z < 1 / 10 then 1 / 10 else z

/-- `Impl::project`: perspective projection onto pixel coordinates together
with the clamped depth. -/
def project (width height : ℤ) (p : Point3D) : Point2D × ℚ :=
  let outZ := projectDepth p
  let fov : ℚ := 6 / 5
  let x := p.x * fov / outZ * ((height : ℚ) / (width : ℚ))
  let y := p.y * fov / outZ
  (⟨(x + 1) * (1 / 2) * (width : ℚ), (1 - y) * (1 / 2) * (height : ℚ)⟩, outZ)

/-- The denominator `d00 * d11 - d01 * d01` of `Impl::barycentric`. -/
def baryDenom (a b c : Point2D) : ℚ :=
  let v0 : Point2D := ⟨b.x - a.x, b.y - a.y⟩
  let v1 : Point2D := ⟨c.x - a.x, c.y - a.y⟩
  let d00 := v0.x * v0.x + v0.y * v0.y
  let d01 := v0.x * v1.x + v0.y * v1.y
  let d11 := v1.x * v1.x + v1.y * v1.y
  d00 * d11 - d01 * d01

/-- The raw barycentric weights `(u, v, w)` computed by `Impl::barycentric`
(the division is by `baryDenom`, which the caller checks first). -/
def baryRaw (a b c p : Point2D) : ℚ × ℚ × ℚ :=
  let v0 : Point2D := ⟨b.x - a.x, b.y - a.y⟩
  let v1 : Point2D := ⟨c.x - a.x, c.y - a.y⟩
  let v2 : Point2D := ⟨p.x - a.x, p.y - a.y⟩
  let d00 := v0.x * v0.x + v0.y * v0.y
  let d01 := v0.x * v1.x + v0.y * v1.y
  let d11 := v1.x * v1.x + v1.y * v1.y
  let d20 := v2.x * v0.x + v2.y * v0.y
  let d21 := v2.x * v1.x + v2.y * v1.y
  let denom := d00 * d11 - d01 * d01
  let v := (d11 * d20 - d01 * d21) / denom
  let w := (d00 * d21 - d01 * d20) / denom
  (1 - v - w, v, w)

/-- `Impl::barycentric`: `some (u, v, w)` exactly when the source returns
`true` (non-degenerate denominator and all weights nonnegative); `none`
when it returns `false` and the caller skips the pixel. -/
def barycentric (a b c p : Point2D) : Option (ℚ × ℚ × ℚ) :=
  if |baryDenom a b c| < 1 / 1000000 then none
  else
    let uvw := baryRaw a b c p
    if 0 ≤ uvw.2.1 ∧ 0 ≤ uvw.2.2 ∧ 0 ≤ uvw.1 then some uvw else none

/-- The directional-light term of `Impl::drawGarments`:
`max(0.2f, dot(v0.normal, lightDir))` with `lightDir = {0, 0.5, 1}`. -/
def lightTerm (n : Point3D) : ℚ := max (1 / 5) (dot3 n ⟨0, 1 / 2, 1⟩)

/-- `depthBuffer[idx]` read access. -/
def depthAt (db : List ℚ) (idx : ℕ) : ℚ := (db[idx]?).getD 0

/-- The four framebuffer byte writes of the shading branch of
`Impl::drawGarments` at pixel index `idx`. -/
def writeFramebuffer (fb : List ℕ) (idx : ℕ) (light : ℚ) : List ℕ :=
  let px := idx * 4
  ((((fb.set px (ratTruncByte (255 * light))).set (px + 1) (ratTruncByte (220 * light))).set
      (px + 2) (ratTruncByte (220 * light))).set (px + 3) 255)

/-- Innermost loop body of `Impl::drawGarments`: barycentric inside test,
depth test, then depth write and pixel shading. -/
def processPixel (w : ℕ) (p0 p1 p2 : Point2D) (z0 z1 z2 light : ℚ) (x y : ℕ)
    (fbdb : List ℕ × List ℚ) : List ℕ × List ℚ :=
  match barycentric p0 p1 p2 ⟨(x : ℚ), (y : ℚ)⟩ with
  | none => fbdb
  | some (u, v, wt) =>
    let z := u * z0 + v * z1 + wt * z2
    let idx := y * w + x
    if z < depthAt fbdb.2 idx then
      (writeFramebuffer fbdb.1 idx light, fbdb.2.set idx z)
    else fbdb

/-- The clamped pixel range `[lo, hi]` of the bounding-box loops (empty when
`hi < lo`; `lo` is nonnegative after clamping with `max 0`). -/
def pixelRange (lo hi : ℤ) : List ℕ :=
  (List.range (hi + 1 - lo).toNat).map (fun k => lo.toNat + k)

/-- Per-face body of `Impl::drawGarments`: project the three vertices,
compute the light term from `v0.normal`, clamp the bounding box and run the
pixel loops. -/
def rasterizeTriangle (w h : ℤ) (v0 v1 v2 : Vertex) (fbdb : List ℕ × List ℚ) :
    List ℕ × List ℚ :=
  let pz0 := project w h v0.position
  let pz1 := project w h v1.position
  let pz2 := project w h v2.position
  let p0 := pz0.1
  let p1 := pz1.1
  let p2 := pz2.1
  let light := lightTerm v0.normal
  let minX := max 0 ⌊min p0.x (min p1.x p2.x)⌋
  let maxX := min (w - 1) ⌈max p0.x (max p1.x p2.x)⌉
  let minY := max 0 ⌊min p0.y (min p1.y p2.y)⌋
  let maxY := min (h - 1) ⌈max p0.y (max p1.y p2.y)⌉
  (pixelRange minY maxY).foldl (fun acc y =>
    (pixelRange minX maxX).foldl (fun acc2 x =>
      processPixel w.toNat p0 p1 p2 pz0.2 pz1.2 pz2.2 light x y acc2) acc) fbdb

/-- Default-constructed vertex, the out-of-bounds fallback of the modelled
`std::vector` indexing. -/
def defaultVertex : Vertex := ⟨⟨0, 0, 0⟩, ⟨0, 0, 0⟩, ⟨0, 0⟩⟩

/-- All faces of one mesh. -/
def rasterizeObject (w h : ℤ) (m : MeshData) (fbdb : List ℕ × List ℚ) :
    List ℕ × List ℚ :=
  m.faces.foldl (fun acc f =>
    rasterizeTriangle w h ((m.vertices[f.i0]?).getD defaultVertex)
      ((m.vertices[f.i1]?).getD defaultVertex) ((m.vertices[f.i2]?).getD defaultVertex) acc)
    fbdb

/-- The garment loop of `Impl::drawGarments` (invisible or mesh-less
objects are skipped). -/
def rasterScene (w h : ℤ) (objs : List RenderObject) (fbdb : List ℕ × List ℚ) :
    List ℕ × List ℚ :=
  objs.foldl (fun acc obj =>
    if !obj.visible then acc
    else
      match obj.mesh with
      | none => acc
      | some m => rasterizeObject w h m acc) fbdb

/-- `Impl::drawGarments`: the depth buffer is first reset to the far
sentinel `1000.0f`, then every visible garment is rasterized. -/
def drawGarments (st : RendererState) : RendererState :=
  let res := rasterScene st.width st.height st.garments
    (st.framebuffer, List.replicate st.depthBuffer.length 1000)
  { st with framebuffer := res.1, depthBuffer := res.2 }

/-- `std::vector::resize`: keep the prefix, value-initialize new slots. -/
def listResize {α : Type} (l : List α) (n : ℕ) (d : α) : List α :=
  l.take n ++ List.replicate (n - l.length) d

/-- `Impl::resize`. -/
def rendererResize (st : RendererState) (w h : ℤ) : RendererState :=
  { st with width := w, height := h,
            framebuffer := listResize st.framebuffer (w.toNat * h.toNat * 4) 0,
            depthBuffer := listResize st.depthBuffer (w.toNat * h.toNat) 0 }

/-- `Impl::drawBackground`: no-op on an empty camera image, otherwise
resize on dimension mismatch and copy `framebuffer.size()` bytes from the
camera image into the framebuffer. -/
def drawBackground (st : RendererState) : RendererState :=
  if st.currentFrame.image.pixels.isEmpty then st
  else
    let st1 := if st.width ≠ st.currentFrame.image.width ∨
                  st.height ≠ st.currentFrame.image.height then
        rendererResize st st.currentFrame.image.width st.currentFrame.image.height
      else st
    { st1 with framebuffer :=
        listResize st.currentFrame.image.pixels st1.framebuffer.length 0 }

/-- A default-constructed `ImageData` (what the failing `render` returns as
its value slot). -/
def emptyImage : ImageData := ⟨[], 0, 0, 4⟩

/-- Result of `ARRenderer::render` (`Result<ImageData>`). -/
structure RenderResult where
  image : ImageData
  error : ErrorCode
deriving DecidableEq, Repr

/-- `ARRenderer::render`: fails when not initialized, otherwise draws the
background and the garments and returns the framebuffer. -/
def render (st : RendererState) : RenderResult × RendererState :=
  if !st.initialized then (⟨emptyImage, ErrorCode.INITIALIZATION_FAILED⟩, st)
  else
    let st1 := drawGarments (drawBackground st)
    (⟨⟨st1.framebuffer, st1.width, st1.height, 4⟩, ErrorCode.SUCCESS⟩, st1)

/-- `ARRenderer::initialize`. -/
def rendererInitialize (cfg : RenderConfig) (st : RendererState) :
    ErrorCode × RendererState :=
  (ErrorCode.SUCCESS, { st with config := cfg, initialized := true })

/-- A default-constructed renderer. -/
def initialRendererState : RendererState := ⟨{}, false, ⟨⟨[], 0, 0, 4⟩⟩, [], [], [], 0, 0⟩

/-! ## Concrete data used by witnesses and counterexamples -/

/-- A trivial square-root stand-in used to instantiate `fsqrt`-polymorphic
theorems at concrete inputs. -/
def qid (q : ℚ) : ℚ := q

/-- An engine that has received a one-vertex collision body. -/
def c9State : EngineState := engineUpdateCollisionBody ⟨[⟨1, 2, 3⟩]⟩ initialEngineState

/-- A free particle at rest at the origin. -/
def freeParticleAtOrigin : Particle := ⟨⟨0, 0, 0⟩, ⟨0, 0, 0⟩, ⟨0, 0, 0⟩, 1, -1⟩

/-- A configuration whose gravity has been set to zero. -/
def c4Config : PhysicsConfig := { gravity := 0 }

/-- An initialized engine with zero configured gravity and one free
particle. -/
def c4State : EngineState :=
  ⟨c4Config, true, [freeParticleAtOrigin], [], [], ⟨[]⟩⟩

/-- A renderer right after `initialize`, before any camera frame: its
output dimensions are still `0 × 0`. -/
def c6State : RendererState := (rendererInitialize {} initialRendererState).2

/-- A pinned particle anchored to landmark index 0. -/
def anchoredParticle : Particle := ⟨⟨5, 5, 5⟩, ⟨4, 4, 4⟩, ⟨0, 0, 0⟩, 0, 0⟩

/-- A collision body with a single vertex. -/
def c1Body : CollisionBody := ⟨[⟨1, 2, 3⟩]⟩

/-- An engine holding one anchored particle and a live one-vertex body. -/
def c1State : EngineState := ⟨{}, true, [anchoredParticle], [], [], c1Body⟩

/-- The state-mutating public operations of the physics engine. -/
inductive EngineOp where
  | step (dt : ℚ)
  | updateBody (body : CollisionBody)
  | addG (gid : ℕ) (g : Option Garment)
  | removeG (gid : ℕ)

/-- Interpretation of one public operation on the engine state. -/
def applyOp (fsqrt : ℚ → ℚ) (st : EngineState) : EngineOp → EngineState
  | .step dt => (engineStep fsqrt dt st).2
  | .updateBody body => engineUpdateCollisionBody body st
  | .addG gid g => (engineAddGarment fsqrt gid g st).2
  | .removeG gid => engineRemoveGarment gid st

/-- Invariant: every zero-inverse-mass particle currently in the engine has
exactly zero velocity. -/
def zeroMassVelZero (st : EngineState) : Prop :=
  ∀ p ∈ st.particles, p.invMass = 0 → p.velocity = ⟨0, 0, 0⟩

/-- A one-vertex mesh whose vertex triggers the shoulder-anchoring
heuristic (y > 0.45 and |x| > 0.15). -/
def c10Mesh : MeshData := ⟨[⟨⟨1, 1, 0⟩, ⟨0, 0, 1⟩, ⟨0, 0⟩⟩], []⟩

/-- A sample operation sequence: add a garment, update the body, step. -/
def c10Ops : List EngineOp :=
  [EngineOp.addG 0 (some ⟨some c10Mesh⟩), EngineOp.updateBody ⟨[⟨0, 0, 0⟩]⟩,
    EngineOp.step (1 / 60)]

/-- Modelled from the spec (refinement target, not from the source): the
per-channel compositing formula the spec attributes to the shader,
`out = albedo * lightTerm * alpha + existing * (1 - alpha)` with a
normalized alpha. -/
def specComposite (albedo light alpha existing : ℚ) : ℚ :=
  albedo * light * alpha + existing * (1 - alpha)

/-- A 2×2 RGBA framebuffer filled with the byte 7 (a non-black
background). -/
def fbW : List ℕ := List.replicate 16 7

/-- A 2×2 depth buffer at the far sentinel. -/
def dbW : List ℚ := List.replicate 4 1000

/-- A 2×2 RGBA framebuffer filled with the byte 9 (a non-black
background). -/
def fbC3 : List ℕ := List.replicate 16 9

/-- Another 2×2 depth buffer at the far sentinel. -/
def dbC3 : List ℚ := List.replicate 4 1000

/-! ## Helper lemmas -/

@[simp] theorem Point3D.add_def (a b : Point3D) :
    a + b = ⟨a.x + b.x, a.y + b.y, a.z + b.z⟩ := rfl

@[simp] theorem Point3D.sub_def (a b : Point3D) :
    a - b = ⟨a.x - b.x, a.y - b.y, a.z - b.z⟩ := rfl

@[simp] theorem Point3D.smul_def (p : Point3D) (s : ℚ) :
    p.smul s = ⟨p.x * s, p.y * s, p.z * s⟩ := rfl

/-- An empty constraint list leaves the particles untouched. -/
theorem constraintPass_nil (f : ℚ → ℚ) (ps : List Particle) :
    constraintPass f [] ps = ps := rfl

/-- With an empty collision body the collision phase is the identity. -/
theorem solveCollisions_empty_body (f : ℚ → ℚ) (m : ℚ) (ps : List Particle) :
    solveCollisions f m ⟨[]⟩ ps = ps := by
  simp [solveCollisions]

/-- With no constraints and an empty collision body the whole solver loop
is the identity. -/
theorem solverLoop_trivial (f : ℚ → ℚ) (m : ℚ) (n : ℕ) (ps : List Particle) :
    solverLoop f m ⟨[]⟩ [] n ps = ps := by
  induction n with
  | zero => rfl
  | succ k ih =>
    simp [solverLoop, solverIteration, constraintPass_nil, solveCollisions_empty_body, ih]

/-- A write guarded by positive inverse mass of its target cannot touch an
entry whose inverse mass is zero. -/
theorem set_guarded_preserves {ps : List Particle} {j : ℕ} {q : Particle} {i : ℕ}
    {p : Particle} (hp : ps[i]? = some p) (hm : p.invMass = 0)
    (hq : 0 < (getP ps j).invMass) : (ps.set j q)[i]? = some p := by
  rcases eq_or_ne j i with rfl | hne
  · have hgp : getP ps j = p := by simp [getP, hp]
    rw [hgp, hm] at hq
    exact absurd hq (lt_irrefl 0)
  · rw [List.getElem?_set_ne hne]
    exact hp

/-- `relaxMinus` leaves every zero-inverse-mass entry exactly in place. -/
theorem relaxMinus_pinned {ps : List Particle} {j : ℕ} {corr : Point3D} {i : ℕ}
    {p : Particle} (hp : ps[i]? = some p) (hm : p.invMass = 0) :
    (relaxMinus ps j corr)[i]? = some p := by
  unfold relaxMinus
  dsimp only
  split
  · exact set_guarded_preserves hp hm (by assumption)
  · exact hp

/-- `relaxPlus` leaves every zero-inverse-mass entry exactly in place. -/
theorem relaxPlus_pinned {ps : List Particle} {j : ℕ} {corr : Point3D} {i : ℕ}
    {p : Particle} (hp : ps[i]? = some p) (hm : p.invMass = 0) :
    (relaxPlus ps j corr)[i]? = some p := by
  unfold relaxPlus
  dsimp only
  split
  · exact set_guarded_preserves hp hm (by assumption)
  · exact hp

/-- A single constraint relaxation leaves every zero-inverse-mass entry
exactly in place. -/
theorem solveConstraintStep_pinned {f : ℚ → ℚ} {ps : List Particle} {c : Constraint}
    {i : ℕ} {p : Particle} (hp : ps[i]? = some p) (hm : p.invMass = 0) :
    (solveConstraintStep f ps c)[i]? = some p := by
  unfold solveConstraintStep
  dsimp only
  split
  · exact hp
  · exact relaxPlus_pinned (relaxMinus_pinned hp hm) hm

/-- A whole constraint pass leaves every zero-inverse-mass entry exactly in
place. -/
theorem constraintPass_pinned {f : ℚ → ℚ} {cs : List Constraint} {ps : List Particle}
    {i : ℕ} {p : Particle} (hp : ps[i]? = some p) (hm : p.invMass = 0) :
    (constraintPass f cs ps)[i]? = some p := by
  induction cs generalizing ps with
  | nil => exact hp
  | cons c rest ih => exact ih (solveConstraintStep_pinned hp hm)

/-- Collision resolution leaves every zero-inverse-mass entry exactly in
place. -/
theorem solveCollisions_pinned {f : ℚ → ℚ} {m : ℚ} {body : CollisionBody}
    {ps : List Particle} {i : ℕ} {p : Particle} (hp : ps[i]? = some p)
    (hm : p.invMass = 0) : (solveCollisions f m body ps)[i]? = some p := by
  unfold solveCollisions
  rw [List.getElem?_map, hp]
  simp [hm]

/-- The full solver loop leaves every zero-inverse-mass entry exactly in
place. -/
theorem solverLoop_pinned {f : ℚ → ℚ} {m : ℚ} {body : CollisionBody}
    {cs : List Constraint} {n : ℕ} {ps : List Particle} {i : ℕ} {p : Particle}
    (hp : ps[i]? = some p) (hm : p.invMass = 0) :
    (solverLoop f m body cs n ps)[i]? = some p := by
  induction n generalizing ps with
  | zero => exact hp
  | succ k ih =>
    exact ih (solveCollisions_pinned (constraintPass_pinned hp hm) hm)

/-- The velocity-derivation phase leaves zero-inverse-mass particles
untouched. -/
theorem updateVelocityParticle_pinned {dt damping : ℚ} {p : Particle}
    (hm : p.invMass = 0) : updateVelocityParticle dt damping p = p := by
  unfold updateVelocityParticle
  rw [hm]
  simp

/-- Force application does not change the inverse mass of a particle. -/
theorem integrateParticle_invMass (body : CollisionBody) (dt : ℚ) (p : Particle) :
    (integrateParticle body dt p).invMass = p.invMass := by
  unfold integrateParticle
  split
  · rfl
  · split <;> rfl

/-- Force application does not change the velocity, the inverse mass or the
anchor of a pinned particle; its position either stays or snaps to the live
anchor vertex. -/
theorem integrateParticle_pinned {body : CollisionBody} {dt : ℚ} {p : Particle}
    (hm : p.invMass = 0) :
    (integrateParticle body dt p).velocity = p.velocity ∧
      (integrateParticle body dt p).invMass = 0 ∧
      (integrateParticle body dt p).anchorBoneId = p.anchorBoneId ∧
      ((integrateParticle body dt p).position = p.position ∨
        (integrateParticle body dt p).position =
          (body.vertices[usizeOfInt p.anchorBoneId]?).getD ⟨0, 0, 0⟩) := by
  unfold integrateParticle
  rw [hm]
  simp only [lt_self_iff_false, if_false]
  split
  · exact ⟨rfl, rfl, rfl, Or.inr rfl⟩
  · exact ⟨rfl, hm, rfl, Or.inl rfl⟩

/-- `relaxMinus` is the identity when its target has zero inverse mass. -/
theorem relaxMinus_zeroMass {ps : List Particle} {j : ℕ} (corr : Point3D)
    (h : (getP ps j).invMass = 0) : relaxMinus ps j corr = ps := by
  unfold relaxMinus
  dsimp only
  rw [h]
  simp

/-- `relaxPlus` is the identity when its target has zero inverse mass. -/
theorem relaxPlus_zeroMass {ps : List Particle} {j : ℕ} (corr : Point3D)
    (h : (getP ps j).invMass = 0) : relaxPlus ps j corr = ps := by
  unfold relaxPlus
  dsimp only
  rw [h]
  simp

/-- Force application on a pinned particle with a live anchor snaps it to
the anchor vertex. -/
theorem integrateParticle_snap {body : CollisionBody} {dt : ℚ} {p : Particle}
    (hm : p.invMass = 0) (ha : p.anchorBoneId ≠ -1)
    (hlen : usizeOfInt p.anchorBoneId < body.vertices.length) :
    integrateParticle body dt p =
      { p with prevPosition := p.position,
               position := (body.vertices[usizeOfInt p.anchorBoneId]?).getD ⟨0, 0, 0⟩ } := by
  unfold integrateParticle
  rw [hm]
  simp [ha, hlen]

/-- A guarded set whose written record keeps the inverse mass of the slot
does not change the inverse mass stored at any index. -/
theorem set_entry_invMass (ps : List Particle) (j : ℕ) (q : Particle) (i : ℕ)
    (hq : q.invMass = (getP ps j).invMass) :
    ((ps.set j q)[i]?).map Particle.invMass = (ps[i]?).map Particle.invMass := by
  rw [List.getElem?_set]
  by_cases hij : j = i
  · subst hij
    by_cases hl : j < ps.length
    · rw [if_pos rfl, if_pos hl, List.getElem?_eq_getElem hl]
      simp [hq, getP, List.getElem?_eq_getElem hl]
    · rw [if_pos rfl, if_neg hl, List.getElem?_eq_none (le_of_not_lt hl)]
  · rw [if_neg hij]

/-- `relaxMinus` never changes any stored inverse mass. -/
theorem relaxMinus_invMass (ps : List Particle) (j : ℕ) (corr : Point3D) (i : ℕ) :
    ((relaxMinus ps j corr)[i]?).map Particle.invMass =
      (ps[i]?).map Particle.invMass := by
  unfold relaxMinus
  dsimp only
  split
  · exact set_entry_invMass ps j _ i rfl
  · rfl

/-- `relaxPlus` never changes any stored inverse mass. -/
theorem relaxPlus_invMass (ps : List Particle) (j : ℕ) (corr : Point3D) (i : ℕ) :
    ((relaxPlus ps j corr)[i]?).map Particle.invMass =
      (ps[i]?).map Particle.invMass := by
  unfold relaxPlus
  dsimp only
  split
  · exact set_entry_invMass ps j _ i rfl
  · rfl

/-- A constraint relaxation never changes any stored inverse mass. -/
theorem solveConstraintStep_invMass (f : ℚ → ℚ) (ps : List Particle) (c : Constraint)
    (i : ℕ) :
    ((solveConstraintStep f ps c)[i]?).map Particle.invMass =
      (ps[i]?).map Particle.invMass := by
  unfold solveConstraintStep
  dsimp only
  split
  · rfl
  · rw [relaxPlus_invMass, relaxMinus_invMass]

/-- A whole constraint pass never changes any stored inverse mass. -/
theorem constraintPass_invMass (f : ℚ → ℚ) (cs : List Constraint) (ps : List Particle)
    (i : ℕ) :
    ((constraintPass f cs ps)[i]?).map Particle.invMass =
      (ps[i]?).map Particle.invMass := by
  induction cs generalizing ps with
  | nil => rfl
  | cons c rest ih =>
    exact (ih (solveConstraintStep f ps c)).trans (solveConstraintStep_invMass f ps c i)

/-- One sphere response never changes a particle's inverse mass. -/
theorem collideWithVertex_invMass (f : ℚ → ℚ) (m : ℚ) (p : Particle)
    (iv : ℕ × Point3D) : (collideWithVertex f m p iv).invMass = p.invMass := by
  unfold collideWithVertex
  dsimp only
  split <;> rfl

/-- Folding sphere responses never changes a particle's inverse mass. -/
theorem collideFold_invMass (f : ℚ → ℚ) (m : ℚ) (l : List (ℕ × Point3D))
    (p : Particle) : (l.foldl (collideWithVertex f m) p).invMass = p.invMass := by
  induction l generalizing p with
  | nil => rfl
  | cons a l ih => rw [List.foldl_cons, ih, collideWithVertex_invMass]

/-- Collision resolution never changes any stored inverse mass. -/
theorem solveCollisions_invMass (f : ℚ → ℚ) (m : ℚ) (body : CollisionBody)
    (ps : List Particle) (i : ℕ) :
    ((solveCollisions f m body ps)[i]?).map Particle.invMass =
      (ps[i]?).map Particle.invMass := by
  unfold solveCollisions
  rw [List.getElem?_map]
  cases hp : ps[i]? with
  | none => rfl
  | some p =>
    simp only [Option.map_some']
    congr 1
    split
    · rfl
    · exact collideFold_invMass f m body.vertices.enum p

/-- The whole solver loop never changes any stored inverse mass. -/
theorem solverLoop_invMass (f : ℚ → ℚ) (m : ℚ) (body : CollisionBody)
    (cs : List Constraint) (n : ℕ) (ps : List Particle) (i : ℕ) :
    ((solverLoop f m body cs n ps)[i]?).map Particle.invMass =
      (ps[i]?).map Particle.invMass := by
  induction n generalizing ps with
  | zero => rfl
  | succ k ih =>
    exact (ih (solverIteration f m body cs ps)).trans
      ((solveCollisions_invMass f m body (constraintPass f cs ps) i).trans
        (constraintPass_invMass f cs ps i))

/-- Velocity derivation never changes a particle's inverse mass. -/
theorem updateVelocityParticle_invMass (dt damping : ℚ) (p : Particle) :
    (updateVelocityParticle dt damping p).invMass = p.invMass := by
  unfold updateVelocityParticle
  split <;> rfl

/-- `addGarment` creates every particle with exactly zero velocity. -/
theorem particleOfVertex_velocity (v : Vertex) :
    (particleOfVertex v).velocity = ⟨0, 0, 0⟩ := by
  unfold particleOfVertex
  dsimp only
  split <;> rfl

/-- One `step` preserves the zero-mass-zero-velocity invariant. -/
theorem engineUpdate_preserves_zeroMassVelZero (f : ℚ → ℚ) (st : EngineState)
    (dt : ℚ) (h : zeroMassVelZero st) : zeroMassVelZero (engineUpdate f st dt) := by
  unfold engineUpdate
  split
  · exact h
  · intro p' hmem hm'
    obtain ⟨i, hi⟩ := List.mem_iff_getElem?.mp hmem
    rw [List.getElem?_map] at hi
    cases hq : (solverLoop f st.config.collisionMargin st.lastBody st.constraints
        st.config.solverIterations
        (st.particles.map (integrateParticle st.lastBody dt)))[i]? with
    | none => rw [hq] at hi; exact absurd hi (by simp)
    | some q =>
      rw [hq, Option.map_some'] at hi
      injection hi with hi
      have hqinv : q.invMass = 0 := by
        rw [← hi, updateVelocityParticle_invMass] at hm'
        exact hm'
      have hloop := solverLoop_invMass f st.config.collisionMargin st.lastBody
        st.constraints st.config.solverIterations
        (st.particles.map (integrateParticle st.lastBody dt)) i
      rw [hq, Option.map_some', List.getElem?_map, Option.map_map] at hloop
      cases hp0 : st.particles[i]? with
      | none => rw [hp0] at hloop; exact absurd hloop (by simp)
      | some p0 =>
        rw [hp0, Option.map_some'] at hloop
        injection hloop with hloop
        have hp0inv : p0.invMass = 0 := by
          rw [hqinv] at hloop
          have := hloop.symm
          rwa [Function.comp_apply, integrateParticle_invMass] at this
        have hv0 : p0.velocity = ⟨0, 0, 0⟩ :=
          h p0 (List.mem_iff_getElem?.mpr ⟨i, hp0⟩) hp0inv
        have hqi : (st.particles.map (integrateParticle st.lastBody dt))[i]? =
            some (integrateParticle st.lastBody dt p0) := by
          rw [List.getElem?_map, hp0]
          rfl
        have hIinv : (integrateParticle st.lastBody dt p0).invMass = 0 := by
          rw [integrateParticle_invMass]
          exact hp0inv
        have hpin : (solverLoop f st.config.collisionMargin st.lastBody st.constraints
            st.config.solverIterations
            (st.particles.map (integrateParticle st.lastBody dt)))[i]? =
            some (integrateParticle st.lastBody dt p0) := solverLoop_pinned hqi hIinv
        rw [hq] at hpin
        injection hpin with hpin
        have hvq : updateVelocityParticle dt st.config.damping q = q :=
          updateVelocityParticle_pinned hqinv
        rw [hvq] at hi
        rw [← hi, hpin, (integrateParticle_pinned hp0inv).1]
        exact hv0

/-- Every public engine operation preserves the zero-mass-zero-velocity
invariant. -/
theorem applyOp_preserves_zeroMassVelZero (f : ℚ → ℚ) (st : EngineState)
    (op : EngineOp) (h : zeroMassVelZero st) : zeroMassVelZero (applyOp f st op) := by
  cases op with
  | step dt => exact engineUpdate_preserves_zeroMassVelZero f st dt h
  | updateBody b => exact h
  | removeG gid => exact h
  | addG gid g =>
    cases g with
    | none => exact h
    | some gm =>
      cases gm with
      | mk mo =>
        cases mo with
        | none => exact h
        | some m =>
          intro p hp hm
          rcases List.mem_append.mp hp with hl | hr
          · exact h p hl hm
          · obtain ⟨v, -, rfl⟩ := List.mem_map.mp hr
            exact particleOfVertex_velocity v

/-- The shading branch of the pixel loop: inside and closer means the
framebuffer is shaded and the depth buffer written. -/
theorem processPixel_shade {w : ℕ} {p0 p1 p2 : Point2D} {z0 z1 z2 light : ℚ}
    {x y : ℕ} {fb : List ℕ} {db : List ℚ} {u v wt : ℚ}
    (hb : barycentric p0 p1 p2 ⟨(x : ℚ), (y : ℚ)⟩ = some (u, v, wt))
    (hz : u * z0 + v * z1 + wt * z2 < depthAt db (y * w + x)) :
    processPixel w p0 p1 p2 z0 z1 z2 light x y (fb, db) =
      (writeFramebuffer fb (y * w + x) light,
        db.set (y * w + x) (u * z0 + v * z1 + wt * z2)) := by
  unfold processPixel
  rw [hb]
  dsimp only
  rw [if_pos hz]

/-- A pixel outside the triangle (or of a degenerate triangle) leaves both
buffers untouched. -/
theorem processPixel_skip_outside {w : ℕ} {p0 p1 p2 : Point2D} {z0 z1 z2 light : ℚ}
    {x y : ℕ} {fb : List ℕ} {db : List ℚ}
    (hb : barycentric p0 p1 p2 ⟨(x : ℚ), (y : ℚ)⟩ = none) :
    processPixel w p0 p1 p2 z0 z1 z2 light x y (fb, db) = (fb, db) := by
  unfold processPixel
  rw [hb]

/-- A pixel failing the depth test leaves both buffers untouched. -/
theorem processPixel_skip_far {w : ℕ} {p0 p1 p2 : Point2D} {z0 z1 z2 light : ℚ}
    {x y : ℕ} {fb : List ℕ} {db : List ℚ} {u v wt : ℚ}
    (hb : barycentric p0 p1 p2 ⟨(x : ℚ), (y : ℚ)⟩ = some (u, v, wt))
    (hz : ¬u * z0 + v * z1 + wt * z2 < depthAt db (y * w + x)) :
    processPixel w p0 p1 p2 z0 z1 z2 light x y (fb, db) = (fb, db) := by
  unfold processPixel
  rw [hb]
  dsimp only
  rw [if_neg hz]

/-- A degenerate (near-zero denominator) triangle is reported as outside at
every pixel. -/
theorem barycentric_none_of_degenerate {a b c : Point2D}
    (h : |baryDenom a b c| < 1 / 1000000) (p : Point2D) :
    barycentric a b c p = none := by
  unfold barycentric
  rw [if_pos h]

/-- Characterization of a successful inside test: non-degenerate
denominator and all three raw weights nonnegative. -/
theorem barycentric_some_iff (a b c p : Point2D) (u v wt : ℚ) :
    barycentric a b c p = some (u, v, wt) ↔
      ¬|baryDenom a b c| < 1 / 1000000 ∧ baryRaw a b c p = (u, v, wt) ∧
        0 ≤ u ∧ 0 ≤ v ∧ 0 ≤ wt := by
  unfold barycentric
  rcases hr : baryRaw a b c p with ⟨u', v', w'⟩
  by_cases hd : |baryDenom a b c| < 1 / 1000000
  · rw [if_pos hd]
    constructor
    · intro h
      exact absurd h (by simp)
    · rintro ⟨hnd, -⟩
      exact absurd hd hnd
  · rw [if_neg hd]
    dsimp only
    by_cases hw : 0 ≤ v' ∧ 0 ≤ w' ∧ 0 ≤ u'
    · rw [if_pos hw]
      constructor
      · intro h
        injection h with h
        cases h
        exact ⟨hd, rfl, hw.2.2, hw.1, hw.2.1⟩
      · rintro ⟨-, heq, -⟩
        cases heq
        rfl
    · rw [if_neg hw]
      constructor
      · intro h
        exact absurd h (by simp)
      · rintro ⟨-, heq, hu, hv, hwt⟩
        cases heq
        exact absurd ⟨hv, hwt, hu⟩ hw

/-- The four byte writes of the shading branch, read back. -/
theorem writeFramebuffer_bytes (fb : List ℕ) (idx : ℕ) (light : ℚ)
    (h : idx * 4 + 3 < fb.length) :
    (writeFramebuffer fb idx light)[idx * 4]? = some (ratTruncByte (255 * light)) ∧
      (writeFramebuffer fb idx light)[idx * 4 + 1]? = some (ratTruncByte (220 * light)) ∧
      (writeFramebuffer fb idx light)[idx * 4 + 2]? = some (ratTruncByte (220 * light)) ∧
      (writeFramebuffer fb idx light)[idx * 4 + 3]? = some 255 := by
  unfold writeFramebuffer
  dsimp only
  refine ⟨?_, ?_, ?_, ?_⟩
  · rw [List.getElem?_set_ne (by omega), List.getElem?_set_ne (by omega),
      List.getElem?_set_ne (by omega),
      List.getElem?_set_self (by omega)]
  · rw [List.getElem?_set_ne (by omega), List.getElem?_set_ne (by omega),
      List.getElem?_set_self (by simp [List.length_set]; omega)]
  · rw [List.getElem?_set_ne (by omega),
      List.getElem?_set_self (by simp [List.length_set]; omega)]
  · rw [List.getElem?_set_self (by simp [List.length_set]; omega)]

/-! ## Claim theorems -/

/-- Claim C9, counterexample: after `updateCollisionBody` with a nonempty
body, `reset()` leaves the stored collision body in place, so collision-body
state does remain in the engine after `reset`. -/
theorem c9_reset_keeps_collision_body :
    (engineReset c9State).lastBody = ⟨[⟨1, 2, 3⟩]⟩ ∧
      (engineReset c9State).lastBody ≠ ⟨[]⟩ := by
  decide

/-- Claim C9, amended: `reset()` unconditionally clears the particle array,
the constraint list and the garment-range map, but the collision body last
passed to `updateCollisionBody` persists unchanged across `reset`. -/
theorem c9_reset_clears_simulation_state : ∀ st : EngineState,
    (engineReset st).particles = [] ∧ (engineReset st).constraints = [] ∧
      (engineReset st).garmentMap = [] ∧ (engineReset st).lastBody = st.lastBody :=
  fun _ => ⟨rfl, rfl, rfl, rfl⟩

/-- Claim C8, counterexample: the two camera-space z values `-3 < -2.9`
are strictly ordered, but `project` clamps both depths to the same minimum
`0.1`, so the projected depths do not reproduce the ordering relationship
of the inputs. -/
theorem c8_depth_order_collapses_under_clamp :
    (Point3D.mk 0 0 (-3)).z < (Point3D.mk 0 0 (-(29 / 10))).z ∧
      (project 100 100 ⟨0, 0, -3⟩).2 = (project 100 100 ⟨0, 0, -(29 / 10)⟩).2 ∧
      ¬(project 100 100 ⟨0, 0, -3⟩).2 < (project 100 100 ⟨0, 0, -(29 / 10)⟩).2 := by
  refine ⟨by norm_num, ?_, ?_⟩ <;> simp only [project, projectDepth] <;> norm_num

/-- Claim C8, amended: depth under `project` is monotone non-strictly: for
any two 3D points, `p.z ≤ q.z` implies the depth produced by `project` for
`p` is `≤` that for `q` (strictness is lost exactly when both depths clamp
at the `0.1` minimum). -/
theorem c8_project_depth_monotone : ∀ (w h : ℤ) (p q : Point3D),
    p.z ≤ q.z → (project w h p).2 ≤ (project w h q).2 := by
  intro w h p q hz
  show projectDepth p ≤ projectDepth q
  unfold projectDepth
  dsimp only
  split <;> split <;> linarith

/-- Witness for the amended C8 theorem at a concrete pair of points. -/
theorem c8_project_depth_monotone_witness :
    (project 100 100 ⟨0, 0, 0⟩).2 ≤ (project 100 100 ⟨0, 0, 1⟩).2 :=
  c8_project_depth_monotone 100 100 ⟨0, 0, 0⟩ ⟨0, 0, 1⟩ (by norm_num)

/-- Claim C6, counterexample: immediately after `initialize` the pipeline
has no valid output dimensions (`0 × 0`), yet `render()` reports `SUCCESS`
rather than a not-initialized condition. -/
theorem c6_render_succeeds_without_dimensions :
    c6State.width = 0 ∧ c6State.height = 0 ∧
      (render c6State).1.error = ErrorCode.SUCCESS := by
  decide

/-- Claim C6, amended: `render()` reports the not-initialized condition
(and leaves the renderer state untouched, performing no rendering) exactly
when `initialize` has not yet been called; once initialized it reports
success regardless of whether the output dimensions are valid. -/
theorem c6_render_initialization_gate : ∀ st : RendererState,
    (st.initialized = false →
        render st = (⟨emptyImage, ErrorCode.INITIALIZATION_FAILED⟩, st)) ∧
      (st.initialized = true → (render st).1.error = ErrorCode.SUCCESS) := by
  intro st
  constructor
  · intro h; simp [render, h]
  · intro h; simp [render, h]

/-- Witness for the amended C6 theorem: an uninitialized renderer. -/
theorem c6_render_initialization_gate_witness :
    render initialRendererState =
      (⟨emptyImage, ErrorCode.INITIALIZATION_FAILED⟩, initialRendererState) :=
  (c6_render_initialization_gate initialRendererState).1 rfl

/-- Claim C5: `addGarment` reports the no-mesh failure (`INVALID_IMAGE`)
exactly when the garment is null or has no mesh; in that case the whole
engine state — particles, constraints, garment map — is returned unchanged,
and in every other case the call succeeds. -/
theorem c5_addGarment_no_mesh_gate :
    ∀ (f : ℚ → ℚ) (gid : ℕ) (g : Option Garment) (st : EngineState),
      ((engineAddGarment f gid g st).1 = ErrorCode.INVALID_IMAGE ↔
          g.bind Garment.mesh = none) ∧
        (g.bind Garment.mesh = none →
          engineAddGarment f gid g st = (ErrorCode.INVALID_IMAGE, st)) ∧
        (g.bind Garment.mesh ≠ none →
          (engineAddGarment f gid g st).1 = ErrorCode.SUCCESS) := by
  intro f gid g st
  match g with
  | none => simp [engineAddGarment]
  | some gm =>
    match h : gm.mesh with
    | none => simp [engineAddGarment, h]
    | some m => simp [engineAddGarment, h]

/-- Witness for C5: a null garment is rejected with the engine state
unchanged. -/
theorem c5_addGarment_no_mesh_gate_witness :
    engineAddGarment qid 0 none initialEngineState =
      (ErrorCode.INVALID_IMAGE, initialEngineState) :=
  (c5_addGarment_no_mesh_gate qid 0 none initialEngineState).2.1 rfl

/-- Claim C2: in the rasterizer's pixel loop a covered pixel is shaded
exactly when the inside test succeeds (all three barycentric weights
nonnegative with a non-degenerate denominator) and the interpolated depth
`u*z0 + v*z1 + wt*z2` is closer than the stored depth — in which case the
depth buffer is written too; a degenerate triangle draws no pixel; and
`drawGarments` rasterizes over a depth buffer reset to the far sentinel
`1000`. -/
theorem c2_raster_shades_iff_inside_and_closer :
    (∀ (w : ℕ) (p0 p1 p2 : Point2D) (z0 z1 z2 light : ℚ) (x y : ℕ) (fb : List ℕ)
      (db : List ℚ) (u v wt : ℚ),
      barycentric p0 p1 p2 ⟨(x : ℚ), (y : ℚ)⟩ = some (u, v, wt) →
        (u * z0 + v * z1 + wt * z2 < depthAt db (y * w + x) →
          processPixel w p0 p1 p2 z0 z1 z2 light x y (fb, db) =
            (writeFramebuffer fb (y * w + x) light,
              db.set (y * w + x) (u * z0 + v * z1 + wt * z2))) ∧
          (¬u * z0 + v * z1 + wt * z2 < depthAt db (y * w + x) →
            processPixel w p0 p1 p2 z0 z1 z2 light x y (fb, db) = (fb, db))) ∧
      (∀ (w : ℕ) (p0 p1 p2 : Point2D) (z0 z1 z2 light : ℚ) (x y : ℕ) (fb : List ℕ)
        (db : List ℚ),
        barycentric p0 p1 p2 ⟨(x : ℚ), (y : ℚ)⟩ = none →
          processPixel w p0 p1 p2 z0 z1 z2 light x y (fb, db) = (fb, db)) ∧
      (∀ (a b c p : Point2D) (u v wt : ℚ),
        barycentric a b c p = some (u, v, wt) ↔
          ¬|baryDenom a b c| < 1 / 1000000 ∧ baryRaw a b c p = (u, v, wt) ∧
            0 ≤ u ∧ 0 ≤ v ∧ 0 ≤ wt) ∧
      (∀ (a b c p : Point2D), |baryDenom a b c| < 1 / 1000000 →
        barycentric a b c p = none) ∧
      (∀ st : RendererState,
        (drawGarments st).framebuffer =
            (rasterScene st.width st.height st.garments
              (st.framebuffer, List.replicate st.depthBuffer.length 1000)).1 ∧
          (drawGarments st).depthBuffer =
            (rasterScene st.width st.height st.garments
              (st.framebuffer, List.replicate st.depthBuffer.length 1000)).2) :=
  ⟨fun _ _ _ _ _ _ _ _ _ _ _ _ _ _ _ hb =>
      ⟨fun hz => processPixel_shade hb hz, fun hz => processPixel_skip_far hb hz⟩,
    fun _ _ _ _ _ _ _ _ _ _ _ _ hb => processPixel_skip_outside hb,
    barycentric_some_iff,
    fun _ _ _ p h => barycentric_none_of_degenerate h p,
    fun _ => ⟨rfl, rfl⟩⟩

/-- Witness for C2: a concrete triangle over a 2×2 buffer shades pixel
(1,1) and writes its interpolated depth. -/
theorem c2_raster_shades_iff_inside_and_closer_witness :
    processPixel 2 ⟨0, 0⟩ ⟨2, 0⟩ ⟨0, 2⟩ 1 1 1 1 1 1 (fbW, dbW) =
      (writeFramebuffer fbW (1 * 2 + 1) 1,
        dbW.set (1 * 2 + 1) (0 * 1 + 1 / 2 * 1 + 1 / 2 * 1)) :=
  (c2_raster_shades_iff_inside_and_closer.1 2 ⟨0, 0⟩ ⟨2, 0⟩ ⟨0, 2⟩ 1 1 1 1 1 1 fbW dbW
      0 (1 / 2) (1 / 2)
      (by rw [barycentric_some_iff]; norm_num [baryRaw, baryDenom])).1
    (by norm_num [depthAt, dbW, List.getElem?_replicate])

/-- Claim C3, counterexample: the pixel (1,1) passes the inside and depth
tests over a background byte of 9; under the claimed compositing formula a
texture sample with near-zero alpha would leave the byte at 9
(`specComposite 0 1 0 9 = 9`), but the code writes the fixed shaded albedo
byte 255 — it samples no texture and performs no alpha compositing. -/
theorem c3_no_texture_no_compositing :
    specComposite 0 1 0 9 = 9 ∧
      (processPixel 2 ⟨0, 0⟩ ⟨4, 0⟩ ⟨0, 4⟩ 2 2 2 1 1 1 (fbC3, dbC3)).1[12]? = some 255 ∧
      (processPixel 2 ⟨0, 0⟩ ⟨4, 0⟩ ⟨0, 4⟩ 2 2 2 1 1 1 (fbC3, dbC3)).1[12]? ≠ some 9 := by
  have hb : barycentric ⟨0, 0⟩ ⟨4, 0⟩ ⟨0, 4⟩ ⟨((1 : ℕ) : ℚ), ((1 : ℕ) : ℚ)⟩ =
      some (1 / 2, 1 / 4, 1 / 4) := by
    rw [barycentric_some_iff]
    norm_num [baryRaw, baryDenom]
  have hz : (1 : ℚ) / 2 * 2 + 1 / 4 * 2 + 1 / 4 * 2 < depthAt dbC3 (1 * 2 + 1) := by
    norm_num [depthAt, dbC3, List.getElem?_replicate]
  have hpp : processPixel 2 ⟨0, 0⟩ ⟨4, 0⟩ ⟨0, 4⟩ 2 2 2 1 1 1 (fbC3, dbC3) =
      (writeFramebuffer fbC3 (1 * 2 + 1) 1,
        dbC3.set (1 * 2 + 1) (1 / 2 * 2 + 1 / 4 * 2 + 1 / 4 * 2)) :=
    processPixel_shade hb hz
  have hwf := (writeFramebuffer_bytes fbC3 (1 * 2 + 1) 1 (by simp [fbC3])).1
  norm_num [ratTruncByte] at hwf
  refine ⟨by norm_num [specComposite], ?_, ?_⟩
  · rw [hpp]
    exact hwf
  · rw [hpp]
    rw [hwf]
    simp

/-- Claim C3, amended: for every pixel that passes the inside and depth
tests the rasterizer overwrites the framebuffer with the fixed albedo
`(255, 220, 220)` scaled by the light term and an alpha byte of 255; the
garment texture is never sampled and the existing framebuffer pixel never
contributes (so the alpha-255-over-black scenario holds only because the
background never contributes at all). -/
theorem c3_fixed_albedo_overwrite :
    (∀ (w : ℕ) (p0 p1 p2 : Point2D) (z0 z1 z2 light : ℚ) (x y : ℕ) (fb fb2 : List ℕ)
      (db : List ℚ) (u v wt : ℚ),
      barycentric p0 p1 p2 ⟨(x : ℚ), (y : ℚ)⟩ = some (u, v, wt) →
        u * z0 + v * z1 + wt * z2 < depthAt db (y * w + x) →
        (processPixel w p0 p1 p2 z0 z1 z2 light x y (fb, db)).1 =
            writeFramebuffer fb (y * w + x) light ∧
          (processPixel w p0 p1 p2 z0 z1 z2 light x y (fb2, db)).1 =
            writeFramebuffer fb2 (y * w + x) light) ∧
      (∀ (fb : List ℕ) (idx : ℕ) (light : ℚ), idx * 4 + 3 < fb.length →
        (writeFramebuffer fb idx light)[idx * 4]? = some (ratTruncByte (255 * light)) ∧
          (writeFramebuffer fb idx light)[idx * 4 + 1]? =
            some (ratTruncByte (220 * light)) ∧
          (writeFramebuffer fb idx light)[idx * 4 + 2]? =
            some (ratTruncByte (220 * light)) ∧
          (writeFramebuffer fb idx light)[idx * 4 + 3]? = some 255) :=
  ⟨fun _ _ _ _ _ _ _ _ _ _ _ _ _ _ _ _ hb hz =>
      ⟨congrArg Prod.fst (processPixel_shade hb hz),
        congrArg Prod.fst (processPixel_shade hb hz)⟩,
    writeFramebuffer_bytes⟩

/-- Witness for the amended C3 theorem: two different backgrounds receive
the identical fixed shading write at pixel (1,1). -/
theorem c3_fixed_albedo_overwrite_witness :
    (processPixel 2 ⟨0, 0⟩ ⟨4, 0⟩ ⟨0, 4⟩ 2 2 2 1 1 1 (fbC3, dbW)).1 =
        writeFramebuffer fbC3 (1 * 2 + 1) 1 ∧
      (processPixel 2 ⟨0, 0⟩ ⟨4, 0⟩ ⟨0, 4⟩ 2 2 2 1 1 1 (fbW, dbW)).1 =
        writeFramebuffer fbW (1 * 2 + 1) 1 :=
  c3_fixed_albedo_overwrite.1 2 ⟨0, 0⟩ ⟨4, 0⟩ ⟨0, 4⟩ 2 2 2 1 1 1 fbC3 fbW dbW
    (1 / 2) (1 / 4) (1 / 4)
    (by rw [barycentric_some_iff]; norm_num [baryRaw, baryDenom])
    (by norm_num [depthAt, dbW, List.getElem?_replicate])

/-- Claim C7: a distance constraint whose endpoints are closer than the
`0.0001` epsilon produces no position correction at all (the relaxation
returns the particle list unchanged, so no division by the near-zero
distance is used), and a constraint both of whose endpoints have zero
inverse mass likewise produces no correction. -/
theorem c7_no_correction_edge_cases :
    ∀ (f : ℚ → ℚ) (ps : List Particle) (c : Constraint),
      (f (normSq ((getP ps c.p1).position - (getP ps c.p2).position)) < 1 / 10000 →
        solveConstraintStep f ps c = ps) ∧
      ((getP ps c.p1).invMass = 0 ∧ (getP ps c.p2).invMass = 0 →
        solveConstraintStep f ps c = ps) := by
  intro f ps c
  constructor
  · intro h
    unfold solveConstraintStep
    dsimp only
    split
    · rfl
    · next hcond => exact absurd h hcond
  · rintro ⟨h1, h2⟩
    unfold solveConstraintStep
    dsimp only
    split
    · rfl
    · rw [relaxMinus_zeroMass _ h1, relaxPlus_zeroMass _ h2]

/-- Witness for C7: the constraint on two default (pinned) particles of the
empty list produces no correction. -/
theorem c7_no_correction_edge_cases_witness :
    solveConstraintStep qid [] ⟨0, 0, 1, 1⟩ = [] :=
  (c7_no_correction_edge_cases qid [] ⟨0, 0, 1, 1⟩).2 ⟨rfl, rfl⟩

/-- Claim C1: after any `step(dt)` in which the collision body has an entry
at an anchored particle's landmark index, that particle's stored record is
exactly its snap to the anchor vertex — position equal to the anchor
primitive's center — and the constraint-relaxation, collision-resolution
and force-application phases contribute nothing to any zero-inverse-mass
particle (the force phase moves such a particle only by the anchor snap,
never by gravity or integration). -/
theorem c1_anchored_particles_track_anchor :
    (∀ (f : ℚ → ℚ) (st : EngineState) (dt : ℚ) (i : ℕ) (p : Particle),
        st.particles[i]? = some p → p.invMass = 0 → p.anchorBoneId ≠ -1 →
        usizeOfInt p.anchorBoneId < st.lastBody.vertices.length →
        (engineStep f dt st).2.particles[i]? = some
          { p with prevPosition := p.position,
                   position :=
                     (st.lastBody.vertices[usizeOfInt p.anchorBoneId]?).getD ⟨0, 0, 0⟩ }) ∧
      (∀ (f : ℚ → ℚ) (cs : List Constraint) (ps : List Particle) (i : ℕ) (p : Particle),
        ps[i]? = some p → p.invMass = 0 → (constraintPass f cs ps)[i]? = some p) ∧
      (∀ (f : ℚ → ℚ) (m : ℚ) (body : CollisionBody) (ps : List Particle) (i : ℕ)
        (p : Particle), ps[i]? = some p → p.invMass = 0 →
        (solveCollisions f m body ps)[i]? = some p) ∧
      (∀ (body : CollisionBody) (dt : ℚ) (p : Particle), p.invMass = 0 →
        (integrateParticle body dt p).velocity = p.velocity ∧
          ((integrateParticle body dt p).position = p.position ∨
            (integrateParticle body dt p).position =
              (body.vertices[usizeOfInt p.anchorBoneId]?).getD ⟨0, 0, 0⟩)) := by
  refine ⟨?_, ?_, ?_, ?_⟩
  · intro f st dt i p hp hm ha hlen
    have hne : st.particles.isEmpty = false := by
      cases hps : st.particles with
      | nil => rw [hps] at hp; simp at hp
      | cons a l => rfl
    show (engineUpdate f st dt).particles[i]? = _
    unfold engineUpdate
    rw [hne]
    simp only [Bool.false_eq_true, if_false]
    have h1 : (st.particles.map (integrateParticle st.lastBody dt))[i]? =
        some (integrateParticle st.lastBody dt p) := by
      rw [List.getElem?_map, hp]
      rfl
    rw [integrateParticle_snap hm ha hlen] at h1
    have h2 : (solverLoop f st.config.collisionMargin st.lastBody st.constraints
        st.config.solverIterations
        (st.particles.map (integrateParticle st.lastBody dt)))[i]? = some
          { p with prevPosition := p.position,
                   position :=
                     (st.lastBody.vertices[usizeOfInt p.anchorBoneId]?).getD ⟨0, 0, 0⟩ } :=
      solverLoop_pinned h1 hm
    have h3 : updateVelocityParticle dt st.config.damping
        { p with prevPosition := p.position,
                 position :=
                   (st.lastBody.vertices[usizeOfInt p.anchorBoneId]?).getD ⟨0, 0, 0⟩ } =
        { p with prevPosition := p.position,
                 position :=
                   (st.lastBody.vertices[usizeOfInt p.anchorBoneId]?).getD ⟨0, 0, 0⟩ } :=
      updateVelocityParticle_pinned hm
    rw [List.getElem?_map, h2, Option.map_some', h3]
  · intro f cs ps i p hp hm
    exact constraintPass_pinned hp hm
  · intro f m body ps i p hp hm
    exact solveCollisions_pinned hp hm
  · intro body dt p hm
    exact ⟨(integrateParticle_pinned hm).1, (integrateParticle_pinned hm).2.2.2⟩

/-- Witness for C1: a concrete anchored particle snaps to the single body
vertex during a step. -/
theorem c1_anchored_particles_track_anchor_witness :
    (engineStep qid 1 c1State).2.particles[0]? = some
      { anchoredParticle with
          prevPosition := anchoredParticle.position,
          position :=
            (c1State.lastBody.vertices[usizeOfInt anchoredParticle.anchorBoneId]?).getD
              ⟨0, 0, 0⟩ } :=
  c1_anchored_particles_track_anchor.1 qid c1State 1 0 anchoredParticle rfl rfl
    (by decide) (by decide)

/-- Claim C10: particles are created by `addGarment` with exactly zero
velocity, and across any sequence of `step`, `updateCollisionBody`,
`addGarment` and `removeGarment` calls every zero-inverse-mass particle
keeps velocity exactly `(0,0,0)`: the force-application,
collision-resolution and velocity-derivation phases skip zero-inverse-mass
particles and the anchor snap writes only positions. -/
theorem c10_pinned_particles_keep_zero_velocity :
    (∀ v : Vertex, (particleOfVertex v).velocity = ⟨0, 0, 0⟩) ∧
      ∀ (f : ℚ → ℚ) (ops : List EngineOp) (st : EngineState),
        zeroMassVelZero st → zeroMassVelZero (ops.foldl (applyOp f) st) := by
  constructor
  · exact particleOfVertex_velocity
  · intro f ops
    induction ops with
    | nil => intro st h; exact h
    | cons op rest ih =>
      intro st h
      exact ih _ (applyOp_preserves_zeroMassVelZero f st op h)

/-- Witness for C10: a concrete add-garment / update-body / step sequence
from the empty engine keeps the invariant. -/
theorem c10_pinned_particles_keep_zero_velocity_witness :
    zeroMassVelZero (c10Ops.foldl (applyOp qid) initialEngineState) :=
  c10_pinned_particles_keep_zero_velocity.2 qid c10Ops initialEngineState
    (fun p hp => absurd hp (List.not_mem_nil p))

/-- Claim C4, code-bug evidence: with the configured gravity set to `0`,
the force-application phase still adds the hardcoded `(0, -9.81, 0) * dt`
to a free particle's velocity, and a full `step(1)` leaves the particle
with the damped hardcoded gravity instead of the configured zero
acceleration: `Impl::update` ignores `PhysicsConfig::gravity`. -/
theorem c4_gravity_hardcoded_not_configured :
    c4State.config.gravity = 0 ∧
      (integrateParticle c4State.lastBody 1 freeParticleAtOrigin).velocity =
        ⟨0, -(981 / 100), 0⟩ ∧
      ((engineStep qid 1 c4State).2.particles[0]?).map Particle.velocity =
        some ⟨0, -(981 / 100) * (99 / 100), 0⟩ := by
  refine ⟨rfl, ?_, ?_⟩
  · simp only [c4State, integrateParticle, hardcodedGravity, freeParticleAtOrigin]
    norm_num
  · simp only [engineStep, engineUpdate, c4State, c4Config, freeParticleAtOrigin,
      List.isEmpty_cons, List.map_cons, List.map_nil, solverLoop_trivial,
      integrateParticle, updateVelocityParticle, hardcodedGravity]
    norm_num

end ARFit
